import Mathlib

/-!
Verification development for the NTL-SysToolbox network-audit core
(`ntl_systoolbox/audit/{eol_database,scanner,report}.py`).

The Python modules are shallowly embedded below.  Pure computations are
translated into executable Lean functions; network and clock effects
(socket probes, `ping`, `date.today()`) are made explicit as environment
parameters describing the outcome of each external call, exactly as the
code branches on those outcomes.  Presentation-only strings (the French
`message` fields and log/indicator texts) are not modelled; every field
the audit logic branches on is.
-/

namespace NTL

/-! ### A small regex engine

The pattern tables of `eol_database.py` and `scanner.py` use only a tiny
fragment of Python regular expressions: literal (lowercase) characters,
the whitespace class with a star, an unescaped dot with a star,
alternation, and negative lookahead.  The engine below implements exactly
that fragment with `re.search` semantics (match at any start position). -/

/-- Ascii whitespace characters matched by the Python regex whitespace class. -/
def isPySpace (c : Char) : Bool :=
  c == ' ' || c == '\t' || c == '\n' || c == '\r' || c == '\x0b' || c == '\x0c'

/-- Characters matched by an unescaped dot in a Python regex (no DOTALL flag). -/
def isPyDot (c : Char) : Bool := c != '\n'

/-- Abstract syntax of the regex fragment used by the repository's
pattern tables. -/
inductive Re where
  | eps
  | lit (c : Char)
  | star (p : Char → Bool)
  | seq (a b : Re)
  | alt (a b : Re)
  | nla (a : Re)

/-- Match a starred character predicate against some (possibly empty) leading
segment of the input, handing the rest to the continuation. -/
def starMatch (p : Char → Bool) (k : List Char → Bool) : List Char → Bool
  | [] => k []
  | c :: cs => k (c :: cs) || (p c && starMatch p k cs)

/-- Continuation-passing matcher: does the regex match a leading segment of
the input such that the continuation accepts the remainder? -/
def Re.matchK : Re → List Char → (List Char → Bool) → Bool
  | .eps, s, k => k s
  | .lit c, s, k =>
      match s with
      | [] => false
      | x :: xs => x == c && k xs
  | .star p, s, k => starMatch p k s
  | .seq a b, s, k => a.matchK s (fun s2 => b.matchK s2 k)
  | .alt a b, s, k => a.matchK s k || b.matchK s k
  | .nla a, s, k => !(a.matchK s (fun _ => true)) && k s

/-- Python `re.search` semantics: try a match at every start position. -/
def reSearch (r : Re) : List Char → Bool
  | [] => r.matchK [] (fun _ => true)
  | c :: cs => r.matchK (c :: cs) (fun _ => true) || reSearch r cs

/-- Concatenation of a list of regexes. -/
def rcat (l : List Re) : Re := l.foldr .seq .eps

/-- A regex matching a literal string. -/
def rstr (s : String) : Re := rcat (s.toList.map .lit)

/-- Whitespace class starred. -/
def ws : Re := .star isPySpace

/-- Unescaped dot starred. -/
def anyc : Re := .star isPyDot

/-- `str.lower` on an ascii string, as a character list. -/
def lowerL (s : String) : List Char := s.toList.map Char.toLower

/-- `str.lower` on an ascii string. -/
def pyLower (s : String) : String := String.mk (lowerL s)

/-- Does `hay` start with `needle`? -/
def listStartsWith : List Char → List Char → Bool
  | _, [] => true
  | [], _ :: _ => false
  | c :: cs, n :: ns => c == n && listStartsWith cs ns

/-- Does `needle` occur as a contiguous substring of the second argument?
(Python `needle in hay`.) -/
def containsSub (needle : List Char) : List Char → Bool
  | [] => listStartsWith [] needle
  | c :: cs => listStartsWith (c :: cs) needle || containsSub needle cs

/-- Python `needle in hay` on strings. -/
def strContains (hay needle : String) : Bool := containsSub needle.toList hay.toList

/-- Python `str.split` on a single separator character, over character
lists (`splitOnChar sep []` is `[[]]`, as Python returns one empty part). -/
def splitOnChar (sep : Char) : List Char → List (List Char)
  | [] => [[]]
  | c :: cs =>
    if c == sep then [] :: splitOnChar sep cs
    else
      match splitOnChar sep cs with
      | [] => [[c]]
      | g :: gs => (c :: g) :: gs

/-! ### `EOLDatabase.OS_PATTERNS` and `normalize_os_name`
(`eol_database.py`, lines 20-69 and 167-186).  The table is a Python dict,
iterated in insertion order; it is embedded as an ordered association list,
each regex translated literally. -/

/-- The ordered pattern table `EOLDatabase.OS_PATTERNS`. -/
def OS_PATTERNS : List (Re × String) := [
  -- Windows Server
  (rcat [rstr "windows", ws, rstr "server", ws, rstr "2022"], "Windows Server 2022"),
  (rcat [rstr "windows", ws, rstr "server", ws, rstr "2019"], "Windows Server 2019"),
  (rcat [rstr "windows", ws, rstr "server", ws, rstr "2016"], "Windows Server 2016"),
  (rcat [rstr "windows", ws, rstr "server", ws, rstr "2012", ws, rstr "r2"], "Windows Server 2012 R2"),
  (rcat [rstr "windows", ws, rstr "server", ws, rstr "2012", .nla (rcat [ws, rstr "r2"])], "Windows Server 2012"),
  (rcat [rstr "windows", ws, rstr "server", ws, rstr "2008", ws, rstr "r2"], "Windows Server 2008 R2"),
  (rcat [rstr "windows", ws, rstr "server", ws, rstr "2008", .nla (rcat [ws, rstr "r2"])], "Windows Server 2008"),
  -- Windows Desktop
  (rcat [rstr "windows", ws, rstr "11"], "Windows 11"),
  (rcat [rstr "windows", ws, rstr "10"], "Windows 10"),
  (rcat [rstr "windows", ws, rstr "8.1"], "Windows 8.1"),
  (rcat [rstr "windows", ws, rstr "8", .nla (rstr ".1")], "Windows 8"),
  (rcat [rstr "windows", ws, rstr "7"], "Windows 7"),
  -- Ubuntu
  (rcat [rstr "ubuntu", ws, rstr "24.04"], "Ubuntu 24.04"),
  (rcat [rstr "ubuntu", ws, rstr "22.04"], "Ubuntu 22.04"),
  (rcat [rstr "ubuntu", ws, rstr "20.04"], "Ubuntu 20.04"),
  (rcat [rstr "ubuntu", ws, rstr "18.04"], "Ubuntu 18.04"),
  (rcat [rstr "ubuntu", ws, rstr "16.04"], "Ubuntu 16.04"),
  -- Debian
  (rcat [rstr "debian", ws, rstr "12"], "Debian 12"),
  (rcat [rstr "debian", ws, rstr "11"], "Debian 11"),
  (rcat [rstr "debian", ws, rstr "10"], "Debian 10"),
  (rcat [rstr "debian", ws, rstr "9"], "Debian 9"),
  -- CentOS / RHEL
  (rcat [rstr "centos", ws, rstr "stream", ws, rstr "9"], "CentOS Stream 9"),
  (rcat [rstr "centos", ws, rstr "stream", ws, rstr "8"], "CentOS Stream 8"),
  (rcat [rstr "centos", ws, rstr "9"], "CentOS Stream 9"),
  (rcat [rstr "centos", ws, rstr "8"], "CentOS 8"),
  (rcat [rstr "centos", ws, rstr "7"], "CentOS 7"),
  (.alt (rcat [rstr "rhel", ws, rstr "9"]) (rcat [rstr "red", ws, rstr "hat", anyc, rstr "9"]), "RHEL 9"),
  (.alt (rcat [rstr "rhel", ws, rstr "8"]) (rcat [rstr "red", ws, rstr "hat", anyc, rstr "8"]), "RHEL 8"),
  (.alt (rcat [rstr "rhel", ws, rstr "7"]) (rcat [rstr "red", ws, rstr "hat", anyc, rstr "7"]), "RHEL 7"),
  -- VMware ESXi
  (rcat [rstr "esxi", ws, rstr "8"], "VMware ESXi 8.0"),
  (rcat [rstr "esxi", ws, rstr "7"], "VMware ESXi 7.0"),
  (rcat [rstr "esxi", ws, rstr "6.7"], "VMware ESXi 6.7"),
  (rcat [rstr "esxi", ws, rstr "6.5"], "VMware ESXi 6.5"),
  (rcat [rstr "vmware", anyc, rstr "8.0"], "VMware ESXi 8.0"),
  (rcat [rstr "vmware", anyc, rstr "7.0"], "VMware ESXi 7.0"),
  (rcat [rstr "vmware", anyc, rstr "6.7"], "VMware ESXi 6.7"),
  (rcat [rstr "vmware", anyc, rstr "6.5"], "VMware ESXi 6.5")]

/-- `EOLDatabase.normalize_os_name`: lowercase the input and return the
canonical name of the first pattern that matches; `none` when the input is
empty (falsy) or no pattern matches. -/
def normalize_os_name (osString : String) : Option String :=
  if osString = "" then none
  else OS_PATTERNS.findSome? fun pr =>
    if reSearch pr.1 (lowerL osString) then some pr.2 else none

/-! ### Dates (`datetime.date`) -/

/-- A calendar date, as produced by `datetime.strptime(s, "%Y-%m-%d").date()`. -/
structure PyDate where
  year : Nat
  month : Nat
  day : Nat
deriving DecidableEq, Repr

/-- Length of a month in the proleptic Gregorian calendar. -/
def daysInMonth (y m : Nat) : Nat :=
  if m = 2 then (if y % 4 = 0 ∧ (y % 100 ≠ 0 ∨ y % 400 = 0) then 29 else 28)
  else if m = 4 ∨ m = 6 ∨ m = 9 ∨ m = 11 then 30 else 31

/-- Digits-only string to number. -/
def natOfDigits (l : List Char) : Option Nat :=
  if l ≠ [] ∧ l.all (·.isDigit) then
    some (l.foldl (fun a c => a * 10 + (c.toNat - 48)) 0)
  else none

/-- `EOLDatabase._parse_date`: parse `YYYY-MM-DD`, `none` on an empty (falsy)
string or a string `strptime` rejects (wrong shape, month or day out of range). -/
def parse_date (s : String) : Option PyDate :=
  if s = "" then none
  else match splitOnChar '-' s.toList with
  | [ys, ms, ds] =>
    match natOfDigits ys, natOfDigits ms, natOfDigits ds with
    | some y, some m, some d =>
      if 1 ≤ y ∧ 1 ≤ m ∧ m ≤ 12 ∧ 1 ≤ d ∧ d ≤ daysInMonth y m then
        some ⟨y, m, d⟩
      else none
    | _, _, _ => none
  | _ => none

/-- Serial day number of a date (days since 0000-03-01 of the proleptic
Gregorian calendar, valid for year ≥ 1).  Differences of `dayNum` agree with
Python `(a - b).days`, and `dayNum` is strictly monotone in the calendar
order, so it also decides Python date comparison on valid dates. -/
def dayNum (d : PyDate) : Nat :=
  let y := if d.month ≤ 2 then d.year - 1 else d.year
  let era := y / 400
  let yoe := y % 400
  let mp := (d.month + 9) % 12
  let doy := (153 * mp + 2) / 5 + d.day - 1
  let doe := yoe * 365 + yoe / 4 - yoe / 100 + doy
  era * 146097 + doe

/-- Python `(a - b).days` on dates. -/
def dateDiff (a b : PyDate) : Int := (dayNum a : Int) - (dayNum b : Int)

/-- Python `a < b` on dates (equivalent to comparing serial day numbers). -/
def dateLt (a b : PyDate) : Prop := dayNum a < dayNum b

instance (a b : PyDate) : Decidable (dateLt a b) := by unfold dateLt; infer_instance

/-! ### `EOLDatabase` data and status classification
(`eol_database.py`, lines 72-290). -/

/-- `EOLDatabase.DEFAULT_EOL_DATA`: (os, eol_date, extended_support) rows. -/
def DEFAULT_EOL_DATA : List (String × String × String) := [
  -- Windows Server
  ("Windows Server 2022", "2031-10-14", "2031-10-14"),
  ("Windows Server 2019", "2029-01-09", "2029-01-09"),
  ("Windows Server 2016", "2027-01-12", "2027-01-12"),
  ("Windows Server 2012 R2", "2023-10-10", "2026-10-13"),
  ("Windows Server 2012", "2023-10-10", "2026-10-13"),
  ("Windows Server 2008 R2", "2020-01-14", "2023-01-10"),
  -- Ubuntu
  ("Ubuntu 24.04", "2029-04-01", "2034-04-01"),
  ("Ubuntu 22.04", "2027-04-01", "2032-04-01"),
  ("Ubuntu 20.04", "2025-04-02", "2030-04-02"),
  ("Ubuntu 18.04", "2023-05-31", "2028-04-01"),
  ("Ubuntu 16.04", "2021-04-30", "2026-04-01"),
  -- Debian
  ("Debian 12", "2028-06-01", "2030-06-01"),
  ("Debian 11", "2026-06-01", "2028-06-01"),
  ("Debian 10", "2024-06-30", "2026-06-30"),
  ("Debian 9", "2022-06-30", "2024-06-30"),
  -- CentOS / RHEL
  ("CentOS 7", "2024-06-30", "2024-06-30"),
  ("CentOS 8", "2021-12-31", "2021-12-31"),
  ("RHEL 9", "2032-05-31", "2034-05-31"),
  ("RHEL 8", "2029-05-31", "2031-05-31"),
  ("RHEL 7", "2024-06-30", "2026-06-30"),
  -- VMware ESXi
  ("VMware ESXi 8.0", "2029-04-01", "2031-04-01"),
  ("VMware ESXi 7.0", "2025-04-02", "2027-04-02"),
  ("VMware ESXi 6.7", "2022-10-15", "2023-11-15"),
  ("VMware ESXi 6.5", "2022-10-15", "2022-10-15")]

/-- One value of the `eol_data` mapping. -/
structure EOLEntry where
  name : String
  eolDate : Option PyDate
  extendedSupport : Option PyDate
deriving DecidableEq, Repr

/-- `EOLDatabase._load_eol_data`: key each row by the lowercased OS name.
The source builds a dict; the rows have pairwise distinct keys, so an
insertion-ordered association list with first-match lookup is equivalent. -/
def load_eol_data (rows : List (String × String × String)) : List (String × EOLEntry) :=
  rows.map fun t =>
    (pyLower t.1, { name := t.1, eolDate := parse_date t.2.1, extendedSupport := parse_date t.2.2 })

/-- The `EOLDatabase` state: the loaded mapping and the two alert thresholds
(`thresholds.get('eol_warning_days', 180)` / `('eol_critical_days', 30)`). -/
structure EOLDb where
  eolData : List (String × EOLEntry)
  warningDays : Int
  criticalDays : Int

/-- The database as constructed with no configuration file: the built-in
rows and the default thresholds from `Config.get_thresholds`. -/
def defaultEOLDb : EOLDb :=
  { eolData := load_eol_data DEFAULT_EOL_DATA, warningDays := 180, criticalDays := 30 }

/-- `EOLDatabase.get_eol_info`: try the normalized name first, then fall back
to a direct lowercase lookup. -/
def get_eol_info (db : EOLDb) (osName : String) : Option EOLEntry :=
  match normalize_os_name osName with
  | some normalized =>
      match db.eolData.lookup (pyLower normalized) with
      | some e => some e
      | none => db.eolData.lookup (pyLower osName)
  | none => db.eolData.lookup (pyLower osName)

/-- The result dict of `EOLDatabase.check_eol_status`.  The French `message`
field is presentation only and is not modelled; every field the audit logic
branches on is present.  `eolDate`/`extendedSupport` hold the dates whose
`isoformat()` the source stores. -/
structure EOLStatus where
  osOriginal : String
  osNormalized : Option String
  status : String
  criticality : String
  eolDate : Option PyDate
  extendedSupport : Option PyDate
  daysUntilEol : Option Int
  daysSinceEol : Option Int
deriving DecidableEq, Repr

/-- `EOLDatabase.check_eol_status` with an explicit (injectable) reference
date, exactly as the source computes it. -/
def check_eol_status (db : EOLDb) (osName : String) (referenceDate : PyDate) : EOLStatus :=
  let base : EOLStatus :=
    { osOriginal := osName, osNormalized := none, status := "unknown",
      criticality := "unknown", eolDate := none, extendedSupport := none,
      daysUntilEol := none, daysSinceEol := none }
  match get_eol_info db osName with
  | none => base
  | some info =>
    let base := { base with osNormalized := some info.name, eolDate := info.eolDate,
                            extendedSupport := info.extendedSupport }
    match info.eolDate with
    | none => base
    | some e =>
      let delta : Int := dateDiff e referenceDate
      if delta < 0 then
        let base := { base with daysSinceEol := some (-delta) }
        match info.extendedSupport with
        | some x =>
            if dateLt referenceDate x then
              { base with status := "extended_support", criticality := "warning" }
            else
              { base with status := "end_of_life", criticality := "critical" }
        | none => { base with status := "end_of_life", criticality := "critical" }
      else
        let base := { base with daysUntilEol := some delta }
        if delta ≤ db.criticalDays then
          { base with status := "critical_soon", criticality := "critical" }
        else if delta ≤ db.warningDays then
          { base with status := "warning_soon", criticality := "warning" }
        else
          { base with status := "supported", criticality := "ok" }

/-! ### `NetworkScanner` (`scanner.py`)

Socket and subprocess calls are effects; each probe function is embedded as
a pure function of an environment recording the outcome of every external
call it makes (an `Except Unit _` value is `.error ()` when the call raised
— connection error, timeout, … — and `.ok v` when it returned `v`). -/

/-- `NetworkScanner._get_service_name`. -/
def get_service_name (port : Nat) : String :=
  match port with
  | 21 => "FTP"
  | 22 => "SSH"
  | 23 => "Telnet"
  | 25 => "SMTP"
  | 53 => "DNS"
  | 80 => "HTTP"
  | 110 => "POP3"
  | 135 => "RPC"
  | 139 => "NetBIOS"
  | 143 => "IMAP"
  | 443 => "HTTPS"
  | 445 => "SMB"
  | 902 => "VMware"
  | 3306 => "MySQL"
  | 3389 => "RDP"
  | 5432 => "PostgreSQL"
  | 8080 => "HTTP-Alt"
  | _ => "Port-" ++ toString port

/-- The per-port result dict of `NetworkScanner._scan_port`. -/
structure PortResult where
  port : Nat
  isOpen : Bool
  service : String
  banner : Option String
deriving DecidableEq, Repr

/-- Outcomes of the external calls `_scan_port` can make on one port:
the connect phase (socket creation / `settimeout` / `connect_ex`; `.ok c`
is the `connect_ex` return code, `.error ()` any raised exception), the
text-banner `recv` + decode (decode uses `errors='replace'`, so only the
socket call itself can fail), and the port-80 HEAD send + `recv`. -/
structure PortProbeEnv where
  connectRes : Except Unit Int
  recvBanner : Except Unit String
  httpExchange : Except Unit String

/-- Python `str.strip` (ascii whitespace). -/
def pyStrip (s : String) : String :=
  String.mk (((s.toList.dropWhile isPySpace).reverse.dropWhile isPySpace).reverse)

/-- Python `s[:200]`. -/
def take200 (s : String) : String := String.mk (s.toList.take 200)

/-- `NetworkScanner._scan_port` on a given port under a given environment.
Every exception path of the source is caught (inner `except: pass`, outer
`except Exception`) and falls back to returning the result dict as built so
far, which is what the corresponding `.error` branches return here. -/
def scan_port (env : PortProbeEnv) (port : Nat) : PortResult :=
  let res : PortResult :=
    { port := port, isOpen := false, service := get_service_name port, banner := none }
  match env.connectRes with
  | .error _ => res
  | .ok code =>
    if code = 0 then
      let res := { res with isOpen := true }
      if port ∈ [21, 22, 25, 110, 143] then
        match env.recvBanner with
        | .ok b =>
            let s := pyStrip b
            if s ≠ "" then { res with banner := some (take200 s) } else res
        | .error _ => res
      else if port = 80 then
        match env.httpExchange with
        | .ok b => { res with banner := some (take200 b) }
        | .error _ => res
      else res
    else res

/-- Is the value a raised exception? -/
def isErr {α : Type} : Except Unit α → Bool
  | .error _ => true
  | .ok _ => false

/-- Some external call of the probe failed (raised): a connection failure,
a timeout, or a failure during the banner exchange. -/
def hasProbeFailure (env : PortProbeEnv) : Bool :=
  isErr env.connectRes || isErr env.recvBanner || isErr env.httpExchange

/-- `NetworkScanner._check_port_quick`: `connect_ex` result, `False` on any
exception. -/
def check_port_quick (res : Except Unit Int) : Bool :=
  match res with
  | .ok code => code == 0
  | .error _ => false

/-- Outcomes of the external calls `_is_host_up` can make: running `ping`
(`.ok c` is the returncode, `.error ()` a `TimeoutExpired` or any other
exception, including `ping` being unavailable), and the two fixed quick
port checks used as fallback (port 445 then port 22). -/
structure LivenessEnv where
  pingRes : Except Unit Int
  quick445 : Except Unit Int
  quick22 : Except Unit Int

/-- `NetworkScanner._is_host_up`: one ping; if it completes, liveness is
`returncode == 0`; if it raises, fall back to quick checks of ports 445
and 22. -/
def is_host_up (env : LivenessEnv) : Bool :=
  match env.pingRes with
  | .ok code => code == 0
  | .error _ => check_port_quick env.quick445 || check_port_quick env.quick22

/-- The banner pattern table `OS_SIGNATURES['banner_patterns']` of
`scanner.py`, in insertion order. -/
def BANNER_PATTERNS : List (Re × String) := [
  (rstr "ubuntu", "Ubuntu"),
  (rstr "debian", "Debian"),
  (rstr "centos", "CentOS"),
  (rcat [rstr "red", ws, rstr "hat"], "RHEL"),
  (rstr "windows", "Windows"),
  (rstr "esxi", "VMware ESXi"),
  (rstr "vmware", "VMware"),
  (rstr "openssh", "Linux/Unix"),
  (rstr "microsoft", "Windows"),
  (rstr "iis", "Windows Server")]

/-- `os_scores[label] = os_scores.get(label, 0) + n` on an insertion-ordered
dict represented as an association list with unique keys: add to the entry
in place if the key is present, else append it. -/
def bump : List (String × Nat) → String → Nat → List (String × Nat)
  | [], k, n => [(k, n)]
  | p :: ps, k, n => if p.1 = k then (p.1, p.2 + n) :: ps else p :: bump ps k n

/-- The score accumulator built by `NetworkScanner._guess_os` from the
open-port dict (a port → `PortResult` association in insertion order):
the four port rules in source order, then the banner rules in table order
over the lowercased space-joined banners. -/
def os_scores (openPorts : List (Nat × PortResult)) : List (String × Nat) :=
  let ports := openPorts.map Prod.fst
  let allBanners :=
    lowerL (String.intercalate " " (openPorts.map fun p => p.2.banner.getD ""))
  let s : List (String × Nat) := []
  let s := if 3389 ∈ ports then bump s "Windows" 3 else s
  let s := if 135 ∈ ports ∨ (445 ∈ ports ∧ 139 ∈ ports) then bump s "Windows" 2 else s
  let s := if 22 ∈ ports ∧ 3389 ∉ ports then bump s "Linux" 2 else s
  let s := if (902 ∈ ports ∨ 443 ∈ ports) ∧ (22 ∈ ports ∧ 3389 ∉ ports) then
    bump s "VMware ESXi" 3 else s
  BANNER_PATTERNS.foldl
    (fun acc pr => if reSearch pr.1 allBanners then bump acc pr.2 4 else acc) s

/-- Python `max(..., key=...)` scan: keep the current best unless a later
element is strictly greater. -/
def pyMaxGo : (String × Nat) → List (String × Nat) → (String × Nat)
  | b, [] => b
  | b, y :: ys => pyMaxGo (if b.2 < y.2 then y else b) ys

/-- Python `max(os_scores, key=os_scores.get)` over an insertion-ordered
dict (`None` on an empty dict, where the source takes the other branch). -/
def pyMax : List (String × Nat) → Option (String × Nat)
  | [] => none
  | x :: xs => some (pyMaxGo x xs)

/-- `NetworkScanner._guess_os`: the winning label and its confidence tier
(`"Inconnu"` with low confidence when the accumulator is empty).  The
indicator strings of the details dict are presentation only. -/
def guess_os (openPorts : List (Nat × PortResult)) : String × String :=
  match pyMax (os_scores openPorts) with
  | some best =>
      (best.1, if 5 ≤ best.2 then "high" else if 3 ≤ best.2 then "medium" else "low")
  | none => ("Inconnu", "low")

/-- The host dict produced by `NetworkScanner._scan_host` for a live host
(`is_up` is always true on the `some` side; a dead host yields `None`):
address, optional reverse-resolved name, the insertion-ordered dict of open
ports, and the OS guess with its confidence tier as set from `_guess_os`. -/
structure ScanHost where
  ip : String
  hostname : Option String
  openPorts : List (Nat × PortResult)
  osGuess : String
  osConfidence : String
deriving DecidableEq, Repr

/-- The result dict of `NetworkScanner.scan_network`, plus two observation
fields making the claims about it statable: `scheduled` records the
addresses submitted to the worker pool, and `criticalErrors` the messages
emitted with `Severity.CRITICAL` (the source appends the `ValueError` text
to the invalid-range message; only the fixed prefix is modelled). -/
structure ScanOutcome where
  network : String
  totalScanned : Nat
  hosts : List ScanHost
  hostsUp : Nat
  scheduled : List String
  criticalErrors : List String

/-- `NetworkScanner.scan_network`, parameterised over the outcome of the
stdlib call `ipaddress.ip_network(...).hosts()` (`parse`, `none` when the
constructor raises `ValueError` on a malformed range) and over the
per-address probe outcome (`probe`, the future results; `none` for a dead
host or a raised probe, both of which the source skips).  Futures complete
in nondeterministic order; the host list is modelled in submission order,
which no claim about this function depends on. -/
def scan_network (parse : String → Option (List String))
    (probe : String → Option ScanHost) (networkRange : String) : ScanOutcome :=
  match parse networkRange with
  | none =>
      { network := networkRange, totalScanned := 0, hosts := [], hostsUp := 0,
        scheduled := [], criticalErrors := ["Plage réseau invalide"] }
  | some ips =>
      let found := ips.filterMap probe
      { network := networkRange, totalScanned := ips.length, hosts := found,
        hostsUp := found.length, scheduled := ips, criticalErrors := [] }

/-- Modelled from the spec: the stdlib `ipaddress.ip_network(range,
strict=False)` constructor followed by `.hosts()`, which is not part of the
repository.  Restricted to the spec's input format, "an address range in
CIDR notation (e.g., `192.168.10.0/24`)": an IPv4 dotted quad with an
optional prefix length; `none` models the `ValueError` on malformed input. -/
def ipNetworkHosts (s : String) : Option (List String) :=
  let ipToStr : Nat → String := fun n =>
    toString (n / 16777216 % 256) ++ "." ++ toString (n / 65536 % 256) ++ "." ++
    toString (n / 256 % 256) ++ "." ++ toString (n % 256)
  let octet : List Char → Option Nat := fun o =>
    match natOfDigits o with
    | some v =>
        if v ≤ 255 ∧ (o.length = 1 ∨ o.head? ≠ some '0') then some v else none
    | none => none
  let addrOf : List Char → Option Nat := fun a =>
    match splitOnChar '.' a with
    | [o1, o2, o3, o4] =>
      match octet o1, octet o2, octet o3, octet o4 with
      | some a1, some a2, some a3, some a4 =>
          some (((a1 * 256 + a2) * 256 + a3) * 256 + a4)
      | _, _, _, _ => none
    | _ => none
  let hostsOf : Nat → Nat → List String := fun addr pl =>
    let block := 2 ^ (32 - pl)
    let net := addr - addr % block
    if pl = 32 then [ipToStr net]
    else if pl = 31 then [ipToStr net, ipToStr (net + 1)]
    else (List.range (block - 2)).map fun i => ipToStr (net + 1 + i)
  match splitOnChar '/' s.toList with
  | [a] => (addrOf a).map fun addr => hostsOf addr 32
  | [a, p] =>
    match addrOf a, natOfDigits p with
    | some addr, some pl => if pl ≤ 32 then some (hostsOf addr pl) else none
    | _, _ => none
  | _ => none

/-! ### `ObsolescenceReport` (`report.py`) -/

/-- The `eol_status` dict built by `_analyze_host` when no OS was
identified.  The source dict carries only `status`, `criticality` and a
fixed message; the remaining keys are absent, which reads as the `none` /
empty defaults here (the source only ever accesses them through
`.get`). -/
def unknownEolStatus : EOLStatus :=
  { osOriginal := "", osNormalized := none, status := "unknown",
    criticality := "unknown", eolDate := none, extendedSupport := none,
    daysUntilEol := none, daysSinceEol := none }

/-- The per-host analysis dict of `ObsolescenceReport._analyze_host`. -/
structure HostAnalysis where
  ip : String
  hostname : Option String
  osDetected : String
  osConfidence : String
  openPortsL : List Nat
  eolStatus : EOLStatus
deriving DecidableEq, Repr

/-- `ObsolescenceReport._analyze_host` with an explicit reference date
(the source calls `check_eol_status` with its default `date.today()`):
classify the guessed OS unless it is empty (falsy) or `'Inconnu'`. -/
def analyze_host (db : EOLDb) (today : PyDate) (host : ScanHost) : HostAnalysis :=
  { ip := host.ip, hostname := host.hostname, osDetected := host.osGuess,
    osConfidence := host.osConfidence,
    openPortsL := host.openPorts.map Prod.fst,
    eolStatus :=
      if host.osGuess ≠ "" ∧ host.osGuess ≠ "Inconnu" then
        check_eol_status db host.osGuess today
      else unknownEolStatus }

/-- A recommendation dict of `ObsolescenceReport._generate_recommendations`.
`target` is `none` where the source dict has no `target` key (the aggregate
INFO entry, which uses `targets` instead); the `reason` text is derived from
the unmodelled message strings and is omitted. -/
structure Recommendation where
  priority : String
  rtype : String
  target : Option String
  targets : List String
  hostname : Option String
  currentOs : Option String
  action : String
  suggestedAlternatives : List String
deriving DecidableEq, Repr

/-- `ObsolescenceReport._suggest_alternatives`: static substitution table on
the lowercased OS name (`[]` for `None` or an empty (falsy) name).  The
source's nested `if` blocks fall through to the later families when no
inner branch returns, which the guard chain below reproduces. -/
def suggest_alternatives (osName : Option String) : List String :=
  match osName with
  | none => []
  | some s =>
    if s = "" then []
    else
      let c := fun (n : String) => strContains (pyLower s) n
      if c "windows server" && (c "2012" || c "2008") then
        ["Windows Server 2019", "Windows Server 2022"]
      else if c "windows server" && c "2016" then
        ["Windows Server 2022"]
      else if c "ubuntu" && (c "16.04" || c "18.04") then
        ["Ubuntu 22.04 LTS", "Ubuntu 24.04 LTS"]
      else if c "ubuntu" && c "20.04" then
        ["Ubuntu 22.04 LTS", "Ubuntu 24.04 LTS"]
      else if c "debian" && (c "9" || c "10") then
        ["Debian 11", "Debian 12"]
      else if c "centos" then
        ["Rocky Linux 9", "AlmaLinux 9", "RHEL 9"]
      else if (c "rhel" || c "red hat") && c "7" then
        ["RHEL 8", "RHEL 9"]
      else if (c "esxi" || c "vmware") && (c "6.5" || c "6.7") then
        ["VMware ESXi 7.0", "VMware ESXi 8.0"]
      else if (c "esxi" || c "vmware") && c "7.0" then
        ["VMware ESXi 8.0"]
      else []

/-- Python `str(x)` for the optional OS name interpolated into f-strings. -/
def optOsStr : Option String → String
  | some s => s
  | none => "None"

/-- The ordinary CRITICAL recommendation emitted for a host of the critical
bucket.  For bucketed hosts `eol_status` always carries the `os_normalized`
key, so `.get('os_normalized', os_detected)` reads that key. -/
def mkCriticalRec (h : HostAnalysis) : Recommendation :=
  { priority := "CRITIQUE", rtype := "migration_urgente", target := some h.ip,
    targets := [], hostname := h.hostname, currentOs := h.eolStatus.osNormalized,
    action := "Migration/remplacement URGENT de " ++ optOsStr h.eolStatus.osNormalized,
    suggestedAlternatives := suggest_alternatives h.eolStatus.osNormalized }

/-- The WARNING recommendation emitted for a host of the warning bucket. -/
def mkWarningRec (h : HostAnalysis) : Recommendation :=
  { priority := "ATTENTION", rtype := "planifier_migration", target := some h.ip,
    targets := [], hostname := h.hostname, currentOs := h.eolStatus.osNormalized,
    action := "Planifier la migration de " ++ optOsStr h.eolStatus.osNormalized,
    suggestedAlternatives := suggest_alternatives h.eolStatus.osNormalized }

/-- The dedicated ESXi 6.5 override recommendation. -/
def esxiRec (h : HostAnalysis) : Recommendation :=
  { priority := "CRITIQUE", rtype := "esxi_obsolete", target := some h.ip,
    targets := [], hostname := h.hostname, currentOs := some "VMware ESXi 6.5",
    action := "MISE À JOUR CRITIQUE - ESXi 6.5 est en fin de vie",
    suggestedAlternatives := ["VMware ESXi 7.0", "VMware ESXi 8.0"] }

/-- The aggregate INFO recommendation for unidentified hosts. -/
def unknownRec (hosts : List HostAnalysis) : Recommendation :=
  { priority := "INFO", rtype := "verification_manuelle", target := none,
    targets := hosts.map (·.ip), hostname := none, currentOs := none,
    action := "Vérifier manuellement " ++ toString hosts.length ++ " hôtes non identifiés",
    suggestedAlternatives := [] }

/-- The special ESXi 6.5 check of `_generate_recommendations`: does the
lowercased detected-OS string contain both `'esxi'` and `'6.5'`? -/
def esxi65Detected (h : HostAnalysis) : Bool :=
  strContains (pyLower h.osDetected) "esxi" && strContains (pyLower h.osDetected) "6.5"

/-- One iteration of the ESXi 6.5 loop of `_generate_recommendations`:
insert the dedicated entry at the front unless some recommendation already
targets the host's address. -/
def esxi65Step (recs : List Recommendation) (h : HostAnalysis) : List Recommendation :=
  if esxi65Detected h then
    if recs.any (fun r => r.target == some h.ip) then recs else esxiRec h :: recs
  else recs

/-- The report dict of `ObsolescenceReport.generate_full_report`: summary
counters, host analyses, criticality buckets and recommendations. -/
structure Report where
  networkRange : String
  totalHosts : Nat
  analyzed : Nat
  supported : Nat
  warningN : Nat
  criticalN : Nat
  unknownN : Nat
  hosts : List HostAnalysis
  byCritical : List HostAnalysis
  byWarning : List HostAnalysis
  byOk : List HostAnalysis
  byUnknown : List HostAnalysis
  recommendations : List Recommendation
deriving DecidableEq, Repr

/-- `ObsolescenceReport._generate_recommendations`: ordinary CRITICAL
entries for the critical bucket, then WARNING entries for the warning
bucket, then the ESXi 6.5 front-insertion loop over all hosts, then (when
the unknown bucket is non-empty) one aggregate INFO entry appended at the
end. -/
def generate_recommendations (rep : Report) : List Recommendation :=
  let recs := rep.byCritical.map mkCriticalRec ++ rep.byWarning.map mkWarningRec
  let recs := rep.hosts.foldl esxi65Step recs
  if rep.byUnknown ≠ [] then recs ++ [unknownRec rep.byUnknown] else recs

/-- One iteration of the per-host loop of `generate_full_report`: analyze
the host, append it to the host list, and count it into exactly the bucket
chosen by the `if`/`elif` chain on its criticality. -/
def reportStep (db : EOLDb) (today : PyDate) (rep : Report) (host : ScanHost) : Report :=
  let a := analyze_host db today host
  let rep := { rep with hosts := rep.hosts ++ [a] }
  let rep :=
    if a.eolStatus.criticality = "critical" then
      { rep with criticalN := rep.criticalN + 1, byCritical := rep.byCritical ++ [a] }
    else if a.eolStatus.criticality = "warning" then
      { rep with warningN := rep.warningN + 1, byWarning := rep.byWarning ++ [a] }
    else if a.eolStatus.criticality = "ok" then
      { rep with supported := rep.supported + 1, byOk := rep.byOk ++ [a] }
    else
      { rep with unknownN := rep.unknownN + 1, byUnknown := rep.byUnknown ++ [a] }
  { rep with analyzed := rep.analyzed + 1 }

/-- `ObsolescenceReport.generate_full_report` with an explicit reference
date, applied to the scan result (report saving and console output are
external collaborators and not modelled). -/
def generate_full_report (db : EOLDb) (today : PyDate) (scan : ScanOutcome) : Report :=
  let rep0 : Report :=
    { networkRange := scan.network, totalHosts := scan.hostsUp, analyzed := 0,
      supported := 0, warningN := 0, criticalN := 0, unknownN := 0, hosts := [],
      byCritical := [], byWarning := [], byOk := [], byUnknown := [],
      recommendations := [] }
  let rep := scan.hosts.foldl (reportStep db today) rep0
  { rep with recommendations := generate_recommendations rep }

/-! ### Concrete example data used by witnesses and counterexamples -/

/-- An open-port dict with SSH and HTTPS open and no banners captured. -/
def sshHttpsPorts : List (Nat × PortResult) :=
  [(22, { port := 22, isOpen := true, service := "SSH", banner := none }),
   (443, { port := 443, isOpen := true, service := "HTTPS", banner := none })]

/-- A discovered host fingerprinted as VMware ESXi 6.5. -/
def esxiScanHost : ScanHost :=
  { ip := "192.168.10.5", hostname := none, openPorts := sshHttpsPorts,
    osGuess := "VMware ESXi 6.5", osConfidence := "high" }

/-- A scan result containing exactly the ESXi 6.5 host. -/
def esxiScanOutcome : ScanOutcome :=
  { network := "192.168.10.0/24", totalScanned := 254, hosts := [esxiScanHost],
    hostsUp := 1, scheduled := [], criticalErrors := [] }

/-- A host analysis whose detected-OS string contains `esxi` and `6.5` but
which the lifecycle registry could not classify (unknown bucket). -/
def oddEsxiHost : HostAnalysis :=
  { ip := "10.0.0.9", hostname := none, osDetected := "6.5 esxi",
    osConfidence := "low", openPortsL := [], eolStatus := unknownEolStatus }

/-- A report whose only host is `oddEsxiHost`, sitting in the unknown
bucket. -/
def oddEsxiReport : Report :=
  { networkRange := "192.168.10.0/24", totalHosts := 1, analyzed := 1,
    supported := 0, warningN := 0, criticalN := 0, unknownN := 1,
    hosts := [oddEsxiHost], byCritical := [], byWarning := [], byOk := [],
    byUnknown := [oddEsxiHost], recommendations := [] }

/-! ### Helper lemmas -/

/-- A `findSome?` over a list none of whose elements produce a value is `none`. -/
lemma findSome?_none {α β : Type} (f : α → Option β) :
    ∀ l : List α, (∀ a ∈ l, f a = none) → l.findSome? f = none := by
  intro l h
  induction l with
  | nil => rfl
  | cons x xs ih =>
    have hx := h x (by simp)
    simp only [List.findSome?_cons, hx]
    exact ih fun a ha => h a (by simp [ha])

/-- The seed of a `pyMaxGo` scan never exceeds its result. -/
lemma pyMaxGo_ge_seed (l : List (String × Nat)) :
    ∀ b : String × Nat, b.2 ≤ (pyMaxGo b l).2 := by
  induction l with
  | nil => intro b; simp [pyMaxGo]
  | cons y ys ih =>
    intro b
    simp only [pyMaxGo]
    by_cases h : b.2 < y.2
    · simp only [if_pos h]
      exact le_of_lt (lt_of_lt_of_le h (ih y))
    · simp only [if_neg h]
      exact ih b

/-- Every element scanned by `pyMaxGo` scores at most the result. -/
lemma pyMaxGo_ge_mem (l : List (String × Nat)) :
    ∀ b : String × Nat, ∀ q ∈ l, q.2 ≤ (pyMaxGo b l).2 := by
  induction l with
  | nil => intro b q hq; simp at hq
  | cons y ys ih =>
    intro b q hq
    simp only [pyMaxGo]
    rcases List.mem_cons.mp hq with hq | hq
    · rw [hq]
      by_cases h : b.2 < y.2
      · simp only [if_pos h]; exact pyMaxGo_ge_seed ys y
      · simp only [if_neg h]
        exact le_trans (le_of_not_lt h) (pyMaxGo_ge_seed ys b)
    · by_cases h : b.2 < y.2
      · simp only [if_pos h]; exact ih y q hq
      · simp only [if_neg h]; exact ih b q hq

/-- Positional characterisation of the `pyMaxGo` scan: the result is the
seed, or the first scanned element whose score strictly exceeds both the
seed and every element before it. -/
lemma pyMaxGo_first (l : List (String × Nat)) :
    ∀ b : String × Nat, pyMaxGo b l = b ∨
      ∃ l1 p l2, l = l1 ++ p :: l2 ∧ pyMaxGo b l = p ∧ b.2 < p.2 ∧
        ∀ q ∈ l1, q.2 < p.2 := by
  induction l with
  | nil => intro b; left; rfl
  | cons y ys ih =>
    intro b
    simp only [pyMaxGo]
    by_cases h : b.2 < y.2
    · simp only [if_pos h]
      rcases ih y with heq | ⟨l1, p, l2, hsplit, heq, hgt, hbefore⟩
      · right
        exact ⟨[], y, ys, rfl, heq, h, by simp⟩
      · right
        refine ⟨y :: l1, p, l2, by rw [hsplit]; rfl, heq, lt_trans h hgt, ?_⟩
        intro q hq
        rcases List.mem_cons.mp hq with hq | hq
        · rw [hq]; exact hgt
        · exact hbefore q hq
    · simp only [if_neg h]
      rcases ih b with heq | ⟨l1, p, l2, hsplit, heq, hgt, hbefore⟩
      · left; exact heq
      · right
        refine ⟨y :: l1, p, l2, by rw [hsplit]; rfl, heq, hgt, ?_⟩
        intro q hq
        rcases List.mem_cons.mp hq with hq | hq
        · rw [hq]; exact lt_of_le_of_lt (le_of_not_lt h) hgt
        · exact hbefore q hq

/-- An entry with a key different from the bumped one survives a `bump`
unchanged. -/
lemma mem_bump_of_ne (l : List (String × Nat)) (k a : String) (v n : Nat)
    (hmem : (a, v) ∈ l) (hne : a ≠ k) : (a, v) ∈ bump l k n := by
  induction l with
  | nil => simp at hmem
  | cons p ps ih =>
    simp only [bump]
    by_cases hp : p.1 = k
    · simp only [if_pos hp]
      rcases List.mem_cons.mp hmem with hq | hq
      · exfalso; apply hne; rw [← hq] at hp; exact hp
      · exact List.mem_cons_of_mem _ hq
    · simp only [if_neg hp]
      rcases List.mem_cons.mp hmem with hq | hq
      · exact hq ▸ List.mem_cons_self _ _
      · exact List.mem_cons_of_mem _ (ih hq)

/-- Bumping a key absent from the accumulator appends it with the given
score. -/
lemma bump_append (l : List (String × Nat)) (k : String) (n : Nat)
    (habs : ∀ p ∈ l, p.1 ≠ k) : bump l k n = l ++ [(k, n)] := by
  induction l with
  | nil => rfl
  | cons p ps ih =>
    have hp : p.1 ≠ k := habs p (by simp)
    simp only [bump, if_neg hp, List.cons_append, List.cons.injEq, true_and]
    exact ih fun q hq => habs q (by simp [hq])

/-- Every key of a bumped accumulator is the bumped key or an existing key. -/
lemma bump_keys (l : List (String × Nat)) (k : String) (n : Nat) :
    ∀ q ∈ bump l k n, q.1 = k ∨ ∃ v, (q.1, v) ∈ l := by
  induction l with
  | nil => intro q hq; simp only [bump] at hq; rcases List.mem_singleton.mp hq with h; left; rw [h]
  | cons p ps ih =>
    intro q hq
    simp only [bump] at hq
    by_cases hp : p.1 = k
    · simp only [if_pos hp] at hq
      rcases List.mem_cons.mp hq with h | h
      · left; rw [h]; exact hp
      · right; exact ⟨q.2, by simp [h]⟩
    · simp only [if_neg hp] at hq
      rcases List.mem_cons.mp hq with h | h
      · right; exact ⟨q.2, by simp [h]⟩
      · rcases ih q h with h1 | ⟨v, hv⟩
        · left; exact h1
        · right; exact ⟨v, List.mem_cons_of_mem _ hv⟩

/-- Full characterisation of `pyMax` on a non-empty accumulator: it returns
an element that is maximal and is preceded only by strictly smaller scores
(so among equal maxima, the first-inserted entry wins). -/
lemma pyMax_spec :
    ∀ l : List (String × Nat), l ≠ [] →
      ∃ l1 p l2, l = l1 ++ p :: l2 ∧ pyMax l = some p ∧
        (∀ q ∈ l, q.2 ≤ p.2) ∧ ∀ q ∈ l1, q.2 < p.2 := by
  intro l hne
  match l with
  | [] => exact absurd rfl hne
  | x :: xs =>
    have hmax : ∀ q ∈ x :: xs, q.2 ≤ (pyMaxGo x xs).2 := by
      intro q hq
      rcases List.mem_cons.mp hq with hq | hq
      · rw [hq]; exact pyMaxGo_ge_seed xs x
      · exact pyMaxGo_ge_mem xs x q hq
    rcases pyMaxGo_first xs x with heq | ⟨l1, p, l2, hsplit, heq, hgt, hbefore⟩
    · refine ⟨[], x, xs, rfl, ?_, ?_, by simp⟩
      · simp only [pyMax, heq]
      · intro q hq
        have := hmax q hq
        rwa [heq] at this
    · refine ⟨x :: l1, p, l2, by rw [hsplit]; rfl, ?_, ?_, ?_⟩
      · simp only [pyMax, heq]
      · intro q hq
        have := hmax q hq
        rwa [heq] at this
      · intro q hq
        rcases List.mem_cons.mp hq with hq | hq
        · rw [hq]; exact hgt
        · exact hbefore q hq

/-- The banner-rule fold preserves an accumulator entry whose label no
banner rule maps to. -/
lemma bannerFold_preserve (text : List Char) (e : String × Nat) :
    ∀ (table : List (Re × String)) (acc : List (String × Nat)),
      e ∈ acc → (∀ pr ∈ table, pr.2 ≠ e.1) →
      e ∈ table.foldl
        (fun acc pr => if reSearch pr.1 text then bump acc pr.2 4 else acc) acc := by
  intro table
  induction table with
  | nil => intro acc hacc _; exact hacc
  | cons pr rest ih =>
    intro acc hacc htab
    simp only [List.foldl_cons]
    apply ih
    · by_cases hs : reSearch pr.1 text
      · simp only [if_pos hs]
        have : (e.1, e.2) ∈ bump acc pr.2 4 :=
          mem_bump_of_ne acc pr.2 e.1 e.2 4 (by simpa using hacc)
            fun h => htab pr (by simp) h.symm
        simpa using this
      · simpa only [if_neg hs] using hacc
    · intro q hq
      exact htab q (by simp [hq])

/-- With SSH open and RDP absent, the accumulator holds `("Linux", 2)`:
only the third port rule touches the label `"Linux"`, and no later rule
maps to it. -/
lemma linux_mem_os_scores (openPorts : List (Nat × PortResult))
    (h22 : 22 ∈ openPorts.map Prod.fst) (h3389 : 3389 ∉ openPorts.map Prod.fst) :
    ("Linux", 2) ∈ os_scores openPorts := by
  have hban : ∀ pr ∈ BANNER_PATTERNS, pr.2 ≠ ("Linux", (2 : Nat)).1 := by decide
  by_cases hA : 135 ∈ openPorts.map Prod.fst ∨
      (445 ∈ openPorts.map Prod.fst ∧ 139 ∈ openPorts.map Prod.fst)
  · by_cases hB : 902 ∈ openPorts.map Prod.fst ∨ 443 ∈ openPorts.map Prod.fst
    · simp only [os_scores]
      rw [if_neg h3389, if_pos hA, if_pos (And.intro h22 h3389),
        if_pos (And.intro hB (And.intro h22 h3389))]
      exact bannerFold_preserve _ _ BANNER_PATTERNS _ (by decide) hban
    · simp only [os_scores]
      rw [if_neg h3389, if_pos hA, if_pos (And.intro h22 h3389),
        if_neg (fun hc => hB hc.1)]
      exact bannerFold_preserve _ _ BANNER_PATTERNS _ (by decide) hban
  · by_cases hB : 902 ∈ openPorts.map Prod.fst ∨ 443 ∈ openPorts.map Prod.fst
    · simp only [os_scores]
      rw [if_neg h3389, if_neg hA, if_pos (And.intro h22 h3389),
        if_pos (And.intro hB (And.intro h22 h3389))]
      exact bannerFold_preserve _ _ BANNER_PATTERNS _ (by decide) hban
    · simp only [os_scores]
      rw [if_neg h3389, if_neg hA, if_pos (And.intro h22 h3389),
        if_neg (fun hc => hB hc.1)]
      exact bannerFold_preserve _ _ BANNER_PATTERNS _ (by decide) hban

/-- A member of the recommendation list survives an ESXi-override step. -/
lemma mem_esxi65Step (recs : List Recommendation) (h : HostAnalysis)
    (r : Recommendation) (hr : r ∈ recs) : r ∈ esxi65Step recs h := by
  simp only [esxi65Step]
  split_ifs <;> first | exact hr | exact List.mem_cons_of_mem _ hr

/-- A member of the recommendation list survives the whole ESXi-override
fold. -/
lemma mem_esxi65Fold (hosts : List HostAnalysis) :
    ∀ (recs : List Recommendation) (r : Recommendation), r ∈ recs →
      r ∈ hosts.foldl esxi65Step recs := by
  induction hosts with
  | nil => intro recs r hr; exact hr
  | cons h rest ih =>
    intro recs r hr
    exact ih _ r (mem_esxi65Step recs h r hr)

/-- After the ESXi-override fold, every ESXi-6.5-flagged host of the list is
targeted by some recommendation. -/
lemma esxi65Fold_covers (hosts : List HostAnalysis) :
    ∀ (recs : List Recommendation) (h : HostAnalysis), h ∈ hosts →
      esxi65Detected h = true →
      ∃ r ∈ hosts.foldl esxi65Step recs, r.target = some h.ip := by
  induction hosts with
  | nil => intro recs h hmem; simp at hmem
  | cons h0 rest ih =>
    intro recs h hmem hdet
    rcases List.mem_cons.mp hmem with hmem | hmem
    · subst hmem
      simp only [List.foldl_cons]
      by_cases hcov : recs.any (fun r => r.target == some h.ip)
      · obtain ⟨r, hr, hrt⟩ := List.any_eq_true.mp hcov
        refine ⟨r, ?_, beq_iff_eq.mp hrt⟩
        apply mem_esxi65Fold rest _ r
        have hstep : esxi65Step recs h = recs := by
          simp [esxi65Step, hdet, hcov]
        rw [hstep]
        exact hr
      · refine ⟨esxiRec h, ?_, rfl⟩
        apply mem_esxi65Fold rest _ (esxiRec h)
        simp only [esxi65Step, hdet, if_true]
        rw [if_neg (by simpa using hcov)]
        exact List.mem_cons_self _ _
    · exact ih _ h hmem hdet

/-- A host that is not ESXi-6.5-flagged leaves the recommendation list
unchanged. -/
lemma esxi65Step_not (recs : List Recommendation) (h : HostAnalysis)
    (hdet : esxi65Detected h = false) : esxi65Step recs h = recs := by
  simp [esxi65Step, hdet]

/-- When exactly one host of the list is ESXi-6.5-flagged and nothing in
the accumulator targets it, the fold prepends exactly its dedicated entry. -/
lemma esxi65Fold_single (hosts : List HostAnalysis) :
    ∀ (recs : List Recommendation) (h : HostAnalysis),
      hosts.filter esxi65Detected = [h] →
      recs.any (fun r => r.target == some h.ip) = false →
      hosts.foldl esxi65Step recs = esxiRec h :: recs := by
  induction hosts with
  | nil => intro recs h hfil; simp at hfil
  | cons h0 rest ih =>
    intro recs h hfil hcov
    by_cases hdet : esxi65Detected h0
    · rw [List.filter_cons_of_pos hdet] at hfil
      obtain ⟨hh, hrest⟩ := List.cons_eq_cons.mp hfil
      subst hh
      have hfold : ∀ acc, rest.foldl esxi65Step acc = acc := by
        intro acc
        clear ih hfil
        induction rest with
        | nil => rfl
        | cons r0 rr ihr =>
          rw [List.filter_cons] at hrest
          by_cases hd : esxi65Detected r0
          · simp [hd] at hrest
          · simp only [hd] at hrest
            simp only [List.foldl_cons, esxi65Step_not _ _ (by simpa using hd)]
            exact ihr (by simpa [hd] using hrest)
      simp only [List.foldl_cons, esxi65Step, hdet, if_true]
      rw [if_neg (by simp [hcov])]
      exact hfold _
    · rw [List.filter_cons_of_neg (by simpa using hdet)] at hfil
      simp only [List.foldl_cons, esxi65Step_not _ _ (by simpa using hdet)]
      exact ih recs h hfil hcov

/-- The per-host loop of `generate_full_report` keeps the buckets a
partition of the host list (as multisets) and the counters equal to the
bucket sizes. -/
lemma reportFold_inv (db : EOLDb) (today : PyDate) (hosts : List ScanHost) :
    ∀ rep : Report,
      ((rep.byCritical : Multiset HostAnalysis) + ↑rep.byWarning + ↑rep.byOk +
          ↑rep.byUnknown = ↑rep.hosts ∧
        rep.analyzed = rep.hosts.length ∧
        rep.criticalN = rep.byCritical.length ∧ rep.warningN = rep.byWarning.length ∧
        rep.supported = rep.byOk.length ∧ rep.unknownN = rep.byUnknown.length) →
      (((hosts.foldl (reportStep db today) rep).byCritical : Multiset HostAnalysis) +
          ↑(hosts.foldl (reportStep db today) rep).byWarning +
          ↑(hosts.foldl (reportStep db today) rep).byOk +
          ↑(hosts.foldl (reportStep db today) rep).byUnknown =
          ↑(hosts.foldl (reportStep db today) rep).hosts ∧
        (hosts.foldl (reportStep db today) rep).analyzed =
          (hosts.foldl (reportStep db today) rep).hosts.length ∧
        (hosts.foldl (reportStep db today) rep).criticalN =
          (hosts.foldl (reportStep db today) rep).byCritical.length ∧
        (hosts.foldl (reportStep db today) rep).warningN =
          (hosts.foldl (reportStep db today) rep).byWarning.length ∧
        (hosts.foldl (reportStep db today) rep).supported =
          (hosts.foldl (reportStep db today) rep).byOk.length ∧
        (hosts.foldl (reportStep db today) rep).unknownN =
          (hosts.foldl (reportStep db today) rep).byUnknown.length) := by
  induction hosts with
  | nil => intro rep h; exact h
  | cons x xs ih =>
    intro rep hinv
    obtain ⟨hm, han, hc, hw, hs, hu⟩ := hinv
    simp only [List.foldl_cons]
    apply ih
    simp only [reportStep]
    split_ifs with h1 h2 h3 <;>
      refine ⟨?_, by simp [han], by simp [hc], by simp [hw], by simp [hs], by simp [hu]⟩ <;>
      · simp only [← Multiset.coe_add] at hm ⊢
        simp only [← hm]
        abel

/-! ### The claims -/

/-- Claim C2: for every malformed (unparseable) address range string, the
scan is rejected: a CRITICAL configuration error is emitted, no probe work
is scheduled, and the returned result contains no hosts at all. -/
theorem scan_rejects_malformed_range (parse : String → Option (List String))
    (probe : String → Option ScanHost) (range : String)
    (hbad : parse range = none) :
    (scan_network parse probe range).scheduled = [] ∧
    (scan_network parse probe range).hosts = [] ∧
    (scan_network parse probe range).hostsUp = 0 ∧
    (scan_network parse probe range).totalScanned = 0 ∧
    (scan_network parse probe range).criticalErrors = ["Plage réseau invalide"] := by
  simp [scan_network, hbad]

/-- Witness for C2 at the malformed range `999.168.10.0/24`. -/
theorem scan_rejects_malformed_range_witness :
    ipNetworkHosts "999.168.10.0/24" = none ∧
    ((scan_network ipNetworkHosts (fun _ => none) "999.168.10.0/24").scheduled = [] ∧
      (scan_network ipNetworkHosts (fun _ => none) "999.168.10.0/24").hosts = [] ∧
      (scan_network ipNetworkHosts (fun _ => none) "999.168.10.0/24").hostsUp = 0 ∧
      (scan_network ipNetworkHosts (fun _ => none) "999.168.10.0/24").totalScanned = 0 ∧
      (scan_network ipNetworkHosts (fun _ => none) "999.168.10.0/24").criticalErrors =
        ["Plage réseau invalide"]) :=
  ⟨by decide,
    scan_rejects_malformed_range ipNetworkHosts (fun _ => none) "999.168.10.0/24" (by decide)⟩

/-- Counterexample to Claim C3 as stated: at reference date 2024-01-01 the
lifecycle status of "VMware ESXi 6.5" does not report 442 days since end of
life (2022-10-15 to 2024-01-01 is 443 days). -/
theorem esxi65_days_since_eol_not_442 :
    (check_eol_status defaultEOLDb "VMware ESXi 6.5" ⟨2024, 1, 1⟩).daysSinceEol =
      some 443 ∧
    ((check_eol_status defaultEOLDb "VMware ESXi 6.5" ⟨2024, 1, 1⟩).daysSinceEol ==
      some 442) = false := by decide

/-- Claim C3 (amended): for "VMware ESXi 6.5" at reference date 2024-01-01,
the status call returns criticality critical, status end_of_life, and 443
days since the registry EOL date 2022-10-15. -/
theorem esxi65_status_2024_01_01 :
    (check_eol_status defaultEOLDb "VMware ESXi 6.5" ⟨2024, 1, 1⟩).criticality =
        "critical" ∧
    (check_eol_status defaultEOLDb "VMware ESXi 6.5" ⟨2024, 1, 1⟩).status =
        "end_of_life" ∧
    (check_eol_status defaultEOLDb "VMware ESXi 6.5" ⟨2024, 1, 1⟩).daysSinceEol =
        some 443 ∧
    (check_eol_status defaultEOLDb "VMware ESXi 6.5" ⟨2024, 1, 1⟩).eolDate =
        some ⟨2022, 10, 15⟩ := by decide

/-- Counterexample to Claim C8 as stated: a probe whose connect succeeds but
whose banner read times out has a failure, yet reports the port as open
(with no banner) — not `open = false`. -/
theorem scan_port_open_despite_timeout :
    hasProbeFailure ⟨Except.ok 0, Except.error (), Except.ok ""⟩ = true ∧
    (scan_port ⟨Except.ok 0, Except.error (), Except.ok ""⟩ 22).isOpen = true ∧
    (scan_port ⟨Except.ok 0, Except.error (), Except.ok ""⟩ 22).banner = none := by
  decide

/-- Claim C8 (amended): a single-port probe never raises (every outcome
environment yields a result); a failure in the connect phase — an exception
or a nonzero connect code — yields `open = false` with no banner, while a
successful connect yields `open = true`, and failures during the optional
banner exchange only leave the banner absent. -/
theorem scan_port_failure_semantics (env : PortProbeEnv) (port : Nat) :
    (env.connectRes ≠ Except.ok 0 →
      (scan_port env port).isOpen = false ∧ (scan_port env port).banner = none) ∧
    (env.connectRes = Except.ok 0 →
      (scan_port env port).isOpen = true ∧
      (isErr env.recvBanner = true → isErr env.httpExchange = true →
        (scan_port env port).banner = none)) := by
  obtain ⟨c, rb, he⟩ := env
  constructor
  · intro hne
    match c with
    | .error u => exact ⟨rfl, rfl⟩
    | .ok code =>
      have hcode : ¬ code = 0 := fun h => hne (by simp [h])
      simp [scan_port, hcode]
  · intro h0
    have hc : c = Except.ok 0 := h0
    subst hc
    refine ⟨?_, ?_⟩
    · cases rb <;> cases he <;> (simp only [scan_port]; split_ifs <;> rfl)
    · intro hr hh
      cases rb with
      | ok b => simp [isErr] at hr
      | error u =>
        cases he with
        | ok s => simp [isErr] at hh
        | error v =>
          simp only [scan_port]
          split_ifs <;> rfl

/-- Witness for C8 (amended) at a connect refusal on port 22. -/
theorem scan_port_failure_semantics_witness :
    (scan_port ⟨Except.ok 1, Except.ok "", Except.ok ""⟩ 22).isOpen = false ∧
    (scan_port ⟨Except.ok 1, Except.ok "", Except.ok ""⟩ 22).banner = none :=
  (scan_port_failure_semantics ⟨Except.ok 1, Except.ok "", Except.ok ""⟩ 22).1
    (by simp)

/-- Claim C9: the liveness check pings once; when ping completes, liveness
is exactly `returncode == 0`; when the ping mechanism raises (unavailable,
timeout, …), it falls back to quick checks of port 445 and port 22 and is
live iff either succeeds. -/
theorem liveness_ping_then_port_fallback (env : LivenessEnv) :
    (∀ code : Int, env.pingRes = Except.ok code → is_host_up env = (code == 0)) ∧
    (env.pingRes = Except.error () → is_host_up env =
      (check_port_quick env.quick445 || check_port_quick env.quick22)) := by
  refine ⟨fun code hc => ?_, fun hc => ?_⟩
  · simp [is_host_up, hc]
  · simp [is_host_up, hc]

/-- Witness for C9: ping raises and only the port-22 fallback succeeds. -/
theorem liveness_ping_then_port_fallback_witness :
    is_host_up ⟨Except.error (), Except.error (), Except.ok 0⟩ =
      (check_port_quick (Except.error ()) || check_port_quick (Except.ok 0)) :=
  (liveness_ping_then_port_fallback ⟨Except.error (), Except.error (), Except.ok 0⟩).2 rfl

/-- Claim C10: in every generated full report the four criticality buckets
partition the analyzed host list (each host lands in exactly one bucket, as
multisets), and the counters satisfy
`analyzed = critical + warning + supported + unknown = |hosts|`. -/
theorem report_buckets_partition (db : EOLDb) (today : PyDate) (scan : ScanOutcome) :
    ((generate_full_report db today scan).byCritical ++
        (generate_full_report db today scan).byWarning ++
        (generate_full_report db today scan).byOk ++
        (generate_full_report db today scan).byUnknown).Perm
      (generate_full_report db today scan).hosts ∧
    (generate_full_report db today scan).analyzed =
      (generate_full_report db today scan).hosts.length ∧
    (generate_full_report db today scan).criticalN +
        (generate_full_report db today scan).warningN +
        (generate_full_report db today scan).supported +
        (generate_full_report db today scan).unknownN =
      (generate_full_report db today scan).analyzed := by
  have h := reportFold_inv db today scan.hosts
    { networkRange := scan.network, totalHosts := scan.hostsUp, analyzed := 0,
      supported := 0, warningN := 0, criticalN := 0, unknownN := 0, hosts := [],
      byCritical := [], byWarning := [], byOk := [], byUnknown := [],
      recommendations := [] }
    ⟨by simp, by simp, by simp, by simp, by simp, by simp⟩
  obtain ⟨hm, han, hcn, hwn, hsn, hun⟩ := h
  simp only [Multiset.coe_add] at hm
  have hperm := Multiset.coe_eq_coe.mp hm
  refine ⟨?_, ?_, ?_⟩
  · simpa [generate_full_report] using hperm
  · simpa [generate_full_report] using han
  · have hlen := hperm.length_eq
    simp only [List.length_append] at hlen
    simp only [generate_full_report]
    omega

/-- Counterexample to Claim C1 as stated: a generated report whose only
host is fingerprinted as VMware ESXi 6.5 and already covered by the
ordinary CRITICAL recommendation gets no dedicated `esxi_obsolete` entry
at all — the insertion is conditional, not unconditional. -/
theorem esxi_override_suppressed_when_covered :
    (generate_full_report defaultEOLDb ⟨2024, 1, 1⟩ esxiScanOutcome).hosts.map
        (·.osDetected) = ["VMware ESXi 6.5"] ∧
    (generate_full_report defaultEOLDb ⟨2024, 1, 1⟩ esxiScanOutcome).recommendations.map
        (·.rtype) = ["migration_urgente"] ∧
    ((generate_full_report defaultEOLDb ⟨2024, 1, 1⟩ esxiScanOutcome).recommendations.map
        (·.rtype)).contains "esxi_obsolete" = false := by decide

/-- Claim C1 (amended): every ESXi-6.5-fingerprinted host of a generated
report is targeted by some recommendation, and the dedicated CRITICAL
`esxi_obsolete` entry is inserted at index 0 exactly for such hosts that no
already-emitted recommendation targets (here stated for a report whose only
flagged host is uncovered). -/
theorem esxi_override_targets_and_front (rep : Report) :
    (∀ h ∈ rep.hosts, esxi65Detected h = true →
      ∃ r ∈ generate_recommendations rep, r.target = some h.ip) ∧
    (∀ h : HostAnalysis, rep.hosts.filter esxi65Detected = [h] →
      ((rep.byCritical.map mkCriticalRec ++ rep.byWarning.map mkWarningRec).any
        (fun r => r.target == some h.ip)) = false →
      (generate_recommendations rep).head? = some (esxiRec h) ∧
      (esxiRec h).priority = "CRITIQUE" ∧ (esxiRec h).rtype = "esxi_obsolete" ∧
      (esxiRec h).target = some h.ip) := by
  constructor
  · intro h hmem hdet
    obtain ⟨r, hr, hrt⟩ := esxi65Fold_covers rep.hosts
      (rep.byCritical.map mkCriticalRec ++ rep.byWarning.map mkWarningRec) h hmem hdet
    refine ⟨r, ?_, hrt⟩
    simp only [generate_recommendations]
    split_ifs with hunk
    · exact List.mem_append_left _ hr
    · exact hr
  · intro h hfil hcov
    have hfold := esxi65Fold_single rep.hosts _ h hfil hcov
    refine ⟨?_, rfl, rfl, rfl⟩
    simp only [generate_recommendations, hfold]
    split_ifs with hunk
    · rfl
    · rfl

/-- Witness for C1 (amended): in the report whose only host carries the
uncovered detected-OS string "6.5 esxi", that host is targeted and the
dedicated entry sits at index 0. -/
theorem esxi_override_targets_and_front_witness :
    (∃ r ∈ generate_recommendations oddEsxiReport, r.target = some oddEsxiHost.ip) ∧
    ((generate_recommendations oddEsxiReport).head? = some (esxiRec oddEsxiHost) ∧
      (esxiRec oddEsxiHost).priority = "CRITIQUE" ∧
      (esxiRec oddEsxiHost).rtype = "esxi_obsolete" ∧
      (esxiRec oddEsxiHost).target = some oddEsxiHost.ip) :=
  ⟨(esxi_override_targets_and_front oddEsxiReport).1 oddEsxiHost (by decide) (by decide),
    (esxi_override_targets_and_front oddEsxiReport).2 oddEsxiHost (by decide) (by decide)⟩

/-- Counterexample to Claim C4 as stated: SSH open, RDP absent and no
banner at all, yet the winning label is "VMware ESXi" (the port rule for
902/443 plus SSH outscores Linux without any banner match). -/
theorem ssh_no_rdp_bannerless_winner_not_linux :
    22 ∈ sshHttpsPorts.map Prod.fst ∧
    (sshHttpsPorts.map Prod.fst).contains 3389 = false ∧
    sshHttpsPorts.map (fun p => p.2.banner) = [none, none] ∧
    (guess_os sshHttpsPorts).1 = "VMware ESXi" := by decide

/-- Claim C4 (amended): for every host with SSH(22) open and RDP(3389)
absent, the accumulator maps "Linux" to score 2, and the winning label
either is "Linux" or is another accumulated label whose score is at least
2 (reached by a port-combination or banner rule). -/
theorem ssh_no_rdp_scores_linux (openPorts : List (Nat × PortResult))
    (h22 : 22 ∈ openPorts.map Prod.fst) (h3389 : 3389 ∉ openPorts.map Prod.fst) :
    ("Linux", 2) ∈ os_scores openPorts ∧
    ∃ s, ((guess_os openPorts).1, s) ∈ os_scores openPorts ∧ 2 ≤ s := by
  have hLin := linux_mem_os_scores openPorts h22 h3389
  refine ⟨hLin, ?_⟩
  obtain ⟨l1, p, l2, hsplit, hmax, hle, _⟩ :=
    pyMax_spec _ (List.ne_nil_of_mem hLin)
  have hg : (guess_os openPorts).1 = p.1 := by simp [guess_os, hmax]
  refine ⟨p.2, ?_, hle _ hLin⟩
  rw [hg]
  have hpmem : p ∈ os_scores openPorts := by
    rw [hsplit]
    exact List.mem_append_right _ (List.mem_cons_self _ _)
  simpa using hpmem

/-- Witness for C4 (amended) at a host with only SSH open. -/
theorem ssh_no_rdp_scores_linux_witness :
    ("Linux", 2) ∈ os_scores
        [(22, { port := 22, isOpen := true, service := "SSH", banner := none })] ∧
    ∃ s, ((guess_os
        [(22, { port := 22, isOpen := true, service := "SSH", banner := none })]).1, s) ∈
      os_scores [(22, { port := 22, isOpen := true, service := "SSH", banner := none })] ∧
      2 ≤ s :=
  ssh_no_rdp_scores_linux _ (by decide) (by decide)

/-- Claim C5: with a known end-of-support date, a nonnegative delta is
classified critical_soon/critical when `delta ≤ critical` (inclusive),
warning_soon/warning when `critical < delta ≤ warning` (inclusive), and
supported/ok beyond; a negative delta is extended_support/warning exactly
when an extended date exists with the reference date strictly before it,
and end_of_life/critical otherwise. -/
theorem eol_threshold_classification (db : EOLDb) (osName : String) (ref : PyDate)
    (info : EOLEntry) (e : PyDate)
    (hinfo : get_eol_info db osName = some info) (he : info.eolDate = some e) :
    (0 ≤ dateDiff e ref →
      (dateDiff e ref ≤ db.criticalDays →
        (check_eol_status db osName ref).status = "critical_soon" ∧
        (check_eol_status db osName ref).criticality = "critical") ∧
      (db.criticalDays < dateDiff e ref → dateDiff e ref ≤ db.warningDays →
        (check_eol_status db osName ref).status = "warning_soon" ∧
        (check_eol_status db osName ref).criticality = "warning") ∧
      (db.criticalDays < dateDiff e ref → db.warningDays < dateDiff e ref →
        (check_eol_status db osName ref).status = "supported" ∧
        (check_eol_status db osName ref).criticality = "ok")) ∧
    (dateDiff e ref < 0 →
      (∀ x, info.extendedSupport = some x → dateLt ref x →
        (check_eol_status db osName ref).status = "extended_support" ∧
        (check_eol_status db osName ref).criticality = "warning") ∧
      ((∀ x, info.extendedSupport = some x → ¬ dateLt ref x) →
        (check_eol_status db osName ref).status = "end_of_life" ∧
        (check_eol_status db osName ref).criticality = "critical")) := by
  simp only [check_eol_status, hinfo, he]
  constructor
  · intro hpos
    rw [if_neg (by omega : ¬ dateDiff e ref < 0)]
    refine ⟨fun hcrit => ?_, fun hgt hwarn => ?_, fun hgt hsup => ?_⟩
    · rw [if_pos hcrit]
      exact ⟨rfl, rfl⟩
    · rw [if_neg (by omega : ¬ dateDiff e ref ≤ db.criticalDays), if_pos hwarn]
      exact ⟨rfl, rfl⟩
    · rw [if_neg (by omega : ¬ dateDiff e ref ≤ db.criticalDays),
        if_neg (by omega : ¬ dateDiff e ref ≤ db.warningDays)]
      exact ⟨rfl, rfl⟩
  · intro hneg
    rw [if_pos hneg]
    constructor
    · intro x hx hlt
      simp only [hx]
      rw [if_pos hlt]
      exact ⟨by trivial, by trivial⟩
    · intro hno
      cases hext : info.extendedSupport with
      | none => simp only [hext]; exact ⟨by trivial, by trivial⟩
      | some x =>
        simp only [hext]
        rw [if_neg (hno x hext)]
        exact ⟨by trivial, by trivial⟩

/-- Witness for C5: "Ubuntu 22.04" at 2026-11-01 (delta 151 days, inside
the default 180-day warning window). -/
theorem eol_threshold_classification_witness :
    (check_eol_status defaultEOLDb "Ubuntu 22.04" ⟨2026, 11, 1⟩).status =
        "warning_soon" ∧
    (check_eol_status defaultEOLDb "Ubuntu 22.04" ⟨2026, 11, 1⟩).criticality =
        "warning" :=
  ((eol_threshold_classification defaultEOLDb "Ubuntu 22.04" ⟨2026, 11, 1⟩
      { name := "Ubuntu 22.04", eolDate := some ⟨2027, 4, 1⟩,
        extendedSupport := some ⟨2032, 4, 1⟩ }
      ⟨2027, 4, 1⟩ (by decide) rfl).1 (by decide)).2.1 (by decide) (by decide)

/-- Claim C6: the normalization table is evaluated in declared order with
the more specific patterns first: "Ubuntu 22.04.3 LTS" maps to
"Ubuntu 22.04", "Windows Server 2012 R2 Datacenter" maps to
"Windows Server 2012 R2" (not bare 2012), and any input matched by no
pattern maps to none. -/
theorem normalization_ordered_first_match :
    normalize_os_name "Ubuntu 22.04.3 LTS" = some "Ubuntu 22.04" ∧
    normalize_os_name "Windows Server 2012 R2 Datacenter" =
      some "Windows Server 2012 R2" ∧
    ∀ s : String, (OS_PATTERNS.all fun pr => !reSearch pr.1 (lowerL s)) = true →
      normalize_os_name s = none := by
  refine ⟨by decide, by decide, fun s hall => ?_⟩
  simp only [normalize_os_name]
  split_ifs with hs
  · rfl
  · apply findSome?_none
    intro pr hpr
    have hmatch := List.all_eq_true.mp hall pr hpr
    simp only [Bool.not_eq_true'] at hmatch
    simp [hmatch]

/-- Witness for C6 at the unmatched input "FreeBSD 13". -/
theorem normalization_ordered_first_match_witness :
    (OS_PATTERNS.all fun pr => !reSearch pr.1 (lowerL "FreeBSD 13")) = true ∧
    normalize_os_name "FreeBSD 13" = none :=
  ⟨by decide, normalization_ordered_first_match.2.2 "FreeBSD 13" (by decide)⟩

/-- Claim C7: on every non-empty score accumulator the winner returned by
the `max` scan is an entry of maximal score preceded only by strictly
smaller scores — the first rule to reach the maximum keeps the win, a later
equal score never overwrites it — and `guess_os` returns exactly that
label. -/
theorem winner_highest_score_first_registered (scores : List (String × Nat))
    (hne : scores ≠ []) :
    ∃ l1 best l2, scores = l1 ++ best :: l2 ∧ pyMax scores = some best ∧
      (∀ q ∈ scores, q.2 ≤ best.2) ∧ (∀ q ∈ l1, q.2 < best.2) ∧
      ∀ openPorts, os_scores openPorts = scores → (guess_os openPorts).1 = best.1 := by
  obtain ⟨l1, p, l2, hsplit, hmax, hle, hlt⟩ := pyMax_spec scores hne
  exact ⟨l1, p, l2, hsplit, hmax, hle, hlt, fun op hop => by simp [guess_os, hop, hmax]⟩

/-- Witness for C7 at a tied accumulator: Windows and Linux both score 2
and the first-registered Windows wins. -/
theorem winner_highest_score_first_registered_witness :
    ∃ l1 best l2, ([("Windows", 2), ("Linux", 2)] : List (String × Nat)) =
        l1 ++ best :: l2 ∧
      pyMax [("Windows", 2), ("Linux", 2)] = some best ∧
      (∀ q ∈ ([("Windows", 2), ("Linux", 2)] : List (String × Nat)), q.2 ≤ best.2) ∧
      (∀ q ∈ l1, q.2 < best.2) ∧
      ∀ openPorts, os_scores openPorts = [("Windows", 2), ("Linux", 2)] →
        (guess_os openPorts).1 = best.1 :=
  winner_highest_score_first_registered [("Windows", 2), ("Linux", 2)] (by decide)

end NTL
